import Mathlib

/-!
Verification of the `errenvelope` Go package (blackwell-systems/err-envelope):
a structured HTTP error envelope with a classifier (`From`), immutable
`With*` mutators, trace-id middleware and a response writer (`Write`).

The embedding is shallow: Go's `error` interface values are modelled by the
inductive `GoError`; the pointer-to-struct `*errenvelope.Error` is modelled
by the structure `ErrorV` (all fields, in source order); `errors.As`,
`errors.Is` and the `net.Error` capability check are modelled as explicit
pre-order traversals of the unwrap chain, matching the traversal order of
Go's `errors` package (the node itself first, then its `Unwrap() error`
child, then the children of `Unwrap() []error` in order).
`time.Duration` is modelled as `Int` nanoseconds.
-/

namespace ErrEnvelope

/-- `Code` in codes.go is a string type; codes are string constants. -/
abbrev Code := String

def CodeInternal : Code := "INTERNAL"
def CodeBadRequest : Code := "BAD_REQUEST"
def CodeNotFound : Code := "NOT_FOUND"
def CodeMethodNotAllowed : Code := "METHOD_NOT_ALLOWED"
def CodeGone : Code := "GONE"
def CodeConflict : Code := "CONFLICT"
def CodePayloadTooLarge : Code := "PAYLOAD_TOO_LARGE"
def CodeRequestTimeout : Code := "REQUEST_TIMEOUT"
def CodeRateLimited : Code := "RATE_LIMITED"
def CodeUnavailable : Code := "UNAVAILABLE"
def CodeValidationFailed : Code := "VALIDATION_FAILED"
def CodeUnauthorized : Code := "UNAUTHORIZED"
def CodeForbidden : Code := "FORBIDDEN"
def CodeUnprocessableEntity : Code := "UNPROCESSABLE_ENTITY"
def CodeTimeout : Code := "TIMEOUT"
def CodeCanceled : Code := "CANCELED"
def CodeDownstream : Code := "DOWNSTREAM_ERROR"
def CodeDownstreamTimeout : Code := "DOWNSTREAM_TIMEOUT"

/-- Model of Go `any` values stored in `Error.Details`: a `map[string]any`
whose values are strings (as built by `Downstream`/`DownstreamTimeout`)
or a `ValidationDetails` struct holding `FieldErrors`. -/
inductive AnyVal where
  | strMap (entries : List (String × String))
  | validationDetails (fields : List (String × String))
  deriving DecidableEq, Repr

/-- Model of Go `error` interface values as seen by the classifier:
a structured `*errenvelope.Error` (fields inline, in source order, with
its `Cause` as the unwrap child), the `context.DeadlineExceeded` and
`context.Canceled` sentinels, a `net.Error` with its `Timeout()` result,
an arbitrary opaque error (optionally wrapping another, as with
`fmt.Errorf("%w", ...)`), or an `errors.Join` of two errors. -/
inductive GoError where
  | structured (code : Code) (message : String) (details : Option AnyVal)
      (traceID : String) (retryable : Bool) (status : Int)
      (cause : Option GoError) (retryAfter : Int)
  | deadlineExceeded
  | canceled
  | netErr (isTimeout : Bool) (wrapped : Option GoError)
  | basic (tag : Nat) (wrapped : Option GoError)
  | joined (a b : GoError)

/-- The `Error` struct of the package (part_002 lines 18–29), with
`RetryAfter` as `Int` nanoseconds. -/
structure ErrorV where
  Code : Code
  Message : String
  Details : Option AnyVal
  TraceID : String
  Retryable : Bool
  Status : Int
  Cause : Option GoError
  RetryAfter : Int

/-- View a structured error value as a Go `error` interface value. -/
def ErrorV.toGoError (e : ErrorV) : GoError :=
  .structured e.Code e.Message e.Details e.TraceID e.Retryable e.Status
    e.Cause e.RetryAfter

/-- `defaultMessage` (part_002 lines 173–206): per-code default message;
codes without a case (including `METHOD_NOT_ALLOWED` and
`REQUEST_TIMEOUT`) fall to the default branch `"Internal error"`. -/
def defaultMessage (code : Code) : String :=
  if code = CodeBadRequest then "Bad request"
  else if code = CodeValidationFailed then "Invalid input"
  else if code = CodeUnauthorized then "Unauthorized"
  else if code = CodeForbidden then "Forbidden"
  else if code = CodeNotFound then "Not found"
  else if code = CodeGone then "Resource no longer exists"
  else if code = CodeConflict then "Conflict"
  else if code = CodePayloadTooLarge then "Payload too large"
  else if code = CodeUnprocessableEntity then "Unprocessable entity"
  else if code = CodeRateLimited then "Rate limited"
  else if code = CodeTimeout ∨ code = CodeDownstreamTimeout then "Request timed out"
  else if code = CodeUnavailable then "Service unavailable"
  else if code = CodeCanceled then "Request canceled"
  else if code = CodeDownstream then "Downstream service error"
  else "Internal error"

/-- `isRetryableDefault` (part_002 lines 208–215). -/
def isRetryableDefault (code : Code) : Bool :=
  code = CodeTimeout ∨ code = CodeDownstreamTimeout ∨
    code = CodeUnavailable ∨ code = CodeRateLimited

/-- `New` (part_002 lines 61–74): status 0 becomes 500, empty message
becomes the code's default; `Retryable` defaults from the table. -/
def New (code : Code) (status : Int) (msg : String) : ErrorV :=
  let status := if status = 0 then 500 else status
  let msg := if msg = "" then defaultMessage code else msg
  { Code := code, Message := msg, Details := none, TraceID := "",
    Retryable := isRetryableDefault code, Status := status,
    Cause := none, RetryAfter := 0 }

/-- `Wrap` (part_002 lines 77–81). -/
def Wrap (code : Code) (status : Int) (msg : String) (cause : Option GoError) :
    ErrorV :=
  { New code status msg with Cause := cause }

/-- `WithDetails` (part_002 lines 97–101): copy, then set `Details`. -/
def ErrorV.WithDetails (e : ErrorV) (details : Option AnyVal) : ErrorV :=
  { e with Details := details }

/-- `WithTraceID` (part_002 lines 105–109): copy, then set `TraceID`. -/
def ErrorV.WithTraceID (e : ErrorV) (id : String) : ErrorV :=
  { e with TraceID := id }

/-- `WithRetryable` (part_002 lines 113–117): copy, then set `Retryable`. -/
def ErrorV.WithRetryable (e : ErrorV) (v : Bool) : ErrorV :=
  { e with Retryable := v }

/-- `WithStatus` (part_002 lines 121–127): copy; set `Status` only when the
argument is non-zero. -/
def ErrorV.WithStatus (e : ErrorV) (status : Int) : ErrorV :=
  { e with Status := if status ≠ 0 then status else e.Status }

/-- `WithRetryAfter` (part_002 lines 132–136): copy, then set `RetryAfter`. -/
def ErrorV.WithRetryAfter (e : ErrorV) (d : Int) : ErrorV :=
  { e with RetryAfter := d }

/-- `errors.As(err, &e)` for target type `*errenvelope.Error`: pre-order
walk of the unwrap chain returning the first structured error found — the
node itself, then its `Unwrap() error` child, then the children of an
`errors.Join` in order. Sentinels, `net.Error`s and opaque errors are not
`*Error`, so the walk descends through them. -/
def asError : GoError → Option ErrorV
  | .structured c m d t r s ca ra => some ⟨c, m, d, t, r, s, ca, ra⟩
  | .deadlineExceeded => none
  | .canceled => none
  | .netErr _ none => none
  | .netErr _ (some w) => asError w
  | .basic _ none => none
  | .basic _ (some w) => asError w
  | .joined a b =>
      match asError a with
      | some e => some e
      | none => asError b

/-- `errors.Is(err, context.DeadlineExceeded)`: does the unwrap chain
contain the deadline-exceeded sentinel? A structured error unwraps to its
`Cause`; a join is searched depth-first in order. -/
def isDeadlineExceeded : GoError → Bool
  | .deadlineExceeded => true
  | .canceled => false
  | .structured _ _ _ _ _ _ none _ => false
  | .structured _ _ _ _ _ _ (some w) _ => isDeadlineExceeded w
  | .netErr _ none => false
  | .netErr _ (some w) => isDeadlineExceeded w
  | .basic _ none => false
  | .basic _ (some w) => isDeadlineExceeded w
  | .joined a b => isDeadlineExceeded a || isDeadlineExceeded b

/-- `errors.Is(err, context.Canceled)`. -/
def isCanceled : GoError → Bool
  | .deadlineExceeded => false
  | .canceled => true
  | .structured _ _ _ _ _ _ none _ => false
  | .structured _ _ _ _ _ _ (some w) _ => isCanceled w
  | .netErr _ none => false
  | .netErr _ (some w) => isCanceled w
  | .basic _ none => false
  | .basic _ (some w) => isCanceled w
  | .joined a b => isCanceled a || isCanceled b

/-- `errors.As(err, &ne)` for target `net.Error`: first node in pre-order
implementing the interface, returning its `Timeout()` result.
`context.DeadlineExceeded`'s concrete type has `Timeout() bool = true` and
`Temporary() bool`, so it satisfies `net.Error`; `context.Canceled`,
`*errenvelope.Error` and plain errors do not. -/
def asNetError : GoError → Option Bool
  | .deadlineExceeded => some true
  | .canceled => none
  | .structured _ _ _ _ _ _ none _ => none
  | .structured _ _ _ _ _ _ (some w) _ => asNetError w
  | .netErr t _ => some t
  | .basic _ none => none
  | .basic _ (some w) => asNetError w
  | .joined a b =>
      match asNetError a with
      | some t => some t
      | none => asNetError b

/-- `Timeout` (part_004/map.go): `New(CodeTimeout, 504, msg).WithRetryable(true)`. -/
def Timeout (msg : String) : ErrorV :=
  (New CodeTimeout 504 msg).WithRetryable true

/-- `Unavailable` (part_004/map.go). -/
def Unavailable (msg : String) : ErrorV :=
  (New CodeUnavailable 503 msg).WithRetryable true

/-- `RateLimited` (part_004/map.go). -/
def RateLimited (msg : String) : ErrorV :=
  (New CodeRateLimited 429 msg).WithRetryable true

/-- `NotFound` (part_004/map.go). -/
def NotFound (msg : String) : ErrorV :=
  (New CodeNotFound 404 msg).WithRetryable false

/-- `Validation` (map.go lines 19–23). -/
def Validation (fields : List (String × String)) : ErrorV :=
  ((New CodeValidationFailed 400 "").WithDetails
    (some (.validationDetails fields))).WithRetryable false

/-- `Downstream` (map.go lines 68–76): details map gets a `"service"` key
only when the service name is non-empty; the map itself is always non-nil. -/
def Downstream (service : String) (cause : Option GoError) : ErrorV :=
  let d : List (String × String) :=
    if service = "" then [] else [("service", service)]
  ((Wrap CodeDownstream 502 "" cause).WithDetails
    (some (.strMap d))).WithRetryable true

/-- `DownstreamTimeout` (map.go lines 79–87). -/
def DownstreamTimeout (service : String) (cause : Option GoError) : ErrorV :=
  let d : List (String × String) :=
    if service = "" then [] else [("service", service)]
  ((Wrap CodeDownstreamTimeout 504 "" cause).WithDetails
    (some (.strMap d))).WithRetryable true

/-- The in-place fill `From` applies to a structured error it finds
(map.go lines 98–104): status 0 becomes 500, empty message becomes the
code's default. -/
def fromFill (e : ErrorV) : ErrorV :=
  { e with
    Status := if e.Status = 0 then 500 else e.Status,
    Message := if e.Message = "" then defaultMessage e.Code else e.Message }

/-- `From` (map.go lines 91–125): nil passes through; a chain containing a
structured error is returned (status/message gap-filled); then the
deadline-exceeded, canceled and net-timeout rules; otherwise wrap as
INTERNAL keeping the original as cause. -/
def From : Option GoError → Option ErrorV
  | none => none
  | some err =>
    match asError err with
    | some e => some (fromFill e)
    | none =>
      if isDeadlineExceeded err then some (Timeout "")
      else if isCanceled err then
        some ((New CodeCanceled 499 "").WithRetryable false)
      else
        match asNetError err with
        | some true => some (Timeout "")
        | _ => some ((Wrap CodeInternal 500 "" (some err)).WithRetryable false)

/-- `Is` (part_002 lines 165–171): `errors.As` finds the first structured
error in the chain and its code alone is compared; the walk does not
continue past it. -/
def Is (err : Option GoError) (code : Code) : Bool :=
  match err with
  | none => false
  | some e =>
    match asError e with
    | some ev => ev.Code = code
    | none => false

/-- The Retry-After header value computed by `Write` (part_006 lines
32–38): `seconds := int(e.RetryAfter.Seconds())` truncates toward zero
(for the positive durations reaching this branch, a floor), then a floor
of 1 is applied. `Duration.Seconds` is nanoseconds divided by 10^9; the
truncated quotient is modelled exactly by natural division. -/
def retryAfterHeaderSeconds (retryAfter : Int) : Nat :=
  let seconds := retryAfter.toNat / 1000000000
  if seconds < 1 then 1 else seconds

/-- The spec's words for the same header value (§4.4 step 4 / §6 table):
the ceiling of the duration in whole seconds, with a floor of 1. Kept
separate from `retryAfterHeaderSeconds` (the source's computation) so the
two can be compared. -/
def ceilSecondsMinOne (retryAfter : Int) : Nat :=
  max 1 ((retryAfter.toNat + 999999999) / 1000000000)

/-- Observable output of `Write` (part_006 lines 16–49), body modelled as
the error value handed to the JSON encoder. -/
structure WriteResult where
  status : Int
  traceHeader : Option String
  retryAfterHeader : Option Nat
  body : Option ErrorV

/-- `Write` (part_006 lines 16–49) as a function of the incoming failure
and of `TraceIDFromRequest(r)` (the request's trace header, else its
context value, else empty). -/
def Write (err : Option GoError) (reqTrace : String) : WriteResult :=
  match From err with
  | none => { status := 204, traceHeader := none, retryAfterHeader := none,
              body := none }
  | some e0 =>
    let e := if e0.TraceID = "" then { e0 with TraceID := reqTrace } else e0
    { status := if e.Status = 0 then 500 else e.Status,
      traceHeader := if e.TraceID = "" then none else some e.TraceID,
      retryAfterHeader :=
        if 0 < e.RetryAfter then some (retryAfterHeaderSeconds e.RetryAfter)
        else none,
      body := some e }

/-- State of a caller-held `*Error` after `Write(w, r, e)` returns, when
the caller passed that pointer directly: `errors.As` in `From` (map.go
line 97) binds `e` to the caller's own pointer, so the status/message fill
(map.go lines 99–104) and the trace-id fill (part_006 lines 23–25) are
assignments through that shared pointer, visible to the caller. -/
def writeSharedFill (e : ErrorV) (reqTrace : String) : ErrorV :=
  let e1 := fromFill e
  if e1.TraceID = "" then { e1 with TraceID := reqTrace } else e1

/-- Lowercase hex digit, as produced by `encoding/hex`. -/
def hexDigit (n : Nat) : Char :=
  if n < 10 then Char.ofNat (48 + n) else Char.ofNat (87 + n)

/-- `hex.EncodeToString` on one byte: high nibble then low nibble. -/
def hexByte (b : Nat) : List Char :=
  [hexDigit (b / 16), hexDigit (b % 16)]

/-- `hex.EncodeToString` over a byte slice. -/
def hexEncode (bs : List Nat) : String :=
  ⟨(bs.map hexByte).flatten⟩

/-- `newTraceID` (middleware.go lines 49–53): hex-encode 16 random bytes;
the random draw is passed as an explicit argument. -/
def newTraceID (randomBytes : List Nat) : String :=
  hexEncode randomBytes

/-- The trace id that `TraceMiddleware` (middleware.go lines 38–47) stores
in the downstream context: the inbound trace header when non-empty, else a
freshly generated id from `newTraceID`. -/
def traceMiddlewareID (headerVal : String) (randomBytes : List Nat) : String :=
  if headerVal = "" then newTraceID randomBytes else headerVal

/-- Is a character a lowercase hexadecimal digit (`0`–`9` or `a`–`f`)? -/
def isLowerHexChar (c : Char) : Bool :=
  (48 ≤ c.toNat && c.toNat ≤ 57) || (97 ≤ c.toNat && c.toNat ≤ 102)

/-- Serialized form of the `details` body field: `Details` has JSON tag
`details,omitempty` on an `any` (interface) field, and `encoding/json`
treats an interface value as empty exactly when it is nil — so the field
is omitted iff `Details` is nil, and a non-nil empty map serializes as an
empty JSON object. `none` here means the field is absent from the body;
`some entries` is the serialized object's key/value list. -/
def detailsField (e : ErrorV) : Option (List (String × String)) :=
  match e.Details with
  | none => none
  | some (.strMap entries) => some entries
  | some (.validationDetails _) => some [("fields", "…")]

/-- Modelled from the spec: `matchesCode` as §4.1 words it — "walks an
unwrap chain and reports whether any StructuredError in the chain carries
the given code". Every structured error anywhere in the chain is
consulted, not only the first one found. Kept separate from `Is` (the
source's computation) so the two can be compared. -/
def chainCarriesCode : GoError → Code → Bool
  | .structured c _ _ _ _ _ none _, code => c = code
  | .structured c _ _ _ _ _ (some w) _, code =>
      c = code || chainCarriesCode w code
  | .deadlineExceeded, _ => false
  | .canceled, _ => false
  | .netErr _ none, _ => false
  | .netErr _ (some w), code => chainCarriesCode w code
  | .basic _ none, _ => false
  | .basic _ (some w), code => chainCarriesCode w code
  | .joined a b, code => chainCarriesCode a code || chainCarriesCode b code

/-! ## Theorems -/

/-- C1 counterexample: the claim says `New(code, 0, "")` yields the §6
table's default status and retryable flag; on the code, `New` replaces a
zero status with 500 for every code (so NOT_FOUND yields 500, not the
table's 404) and `isRetryableDefault` has no case for REQUEST_TIMEOUT (so
it yields false, not the table's true). -/
theorem C1_counterexample :
    (New CodeNotFound 0 "").Status = 500 ∧ (500 : Int) ≠ 404 ∧
    (New CodeRequestTimeout 0 "").Retryable = false := by
  exact ⟨rfl, by decide, rfl⟩

/-- C1 (amended): for every code in the §6 table, `New(code, 0, "")`
yields status 500 (the uniform zero-status fallback), the code's default
message from `defaultMessage` (the fallback "Internal error" for codes
without a case, including METHOD_NOT_ALLOWED and REQUEST_TIMEOUT), and a
retryable flag that is true exactly for TIMEOUT, DOWNSTREAM_TIMEOUT,
UNAVAILABLE and RATE_LIMITED. -/
theorem C1_defaults_table :
    New CodeInternal 0 "" = ⟨CodeInternal, "Internal error", none, "", false, 500, none, 0⟩ ∧
    New CodeBadRequest 0 "" = ⟨CodeBadRequest, "Bad request", none, "", false, 500, none, 0⟩ ∧
    New CodeValidationFailed 0 "" = ⟨CodeValidationFailed, "Invalid input", none, "", false, 500, none, 0⟩ ∧
    New CodeUnauthorized 0 "" = ⟨CodeUnauthorized, "Unauthorized", none, "", false, 500, none, 0⟩ ∧
    New CodeForbidden 0 "" = ⟨CodeForbidden, "Forbidden", none, "", false, 500, none, 0⟩ ∧
    New CodeNotFound 0 "" = ⟨CodeNotFound, "Not found", none, "", false, 500, none, 0⟩ ∧
    New CodeMethodNotAllowed 0 "" = ⟨CodeMethodNotAllowed, "Internal error", none, "", false, 500, none, 0⟩ ∧
    New CodeRequestTimeout 0 "" = ⟨CodeRequestTimeout, "Internal error", none, "", false, 500, none, 0⟩ ∧
    New CodeConflict 0 "" = ⟨CodeConflict, "Conflict", none, "", false, 500, none, 0⟩ ∧
    New CodeGone 0 "" = ⟨CodeGone, "Resource no longer exists", none, "", false, 500, none, 0⟩ ∧
    New CodePayloadTooLarge 0 "" = ⟨CodePayloadTooLarge, "Payload too large", none, "", false, 500, none, 0⟩ ∧
    New CodeUnprocessableEntity 0 "" = ⟨CodeUnprocessableEntity, "Unprocessable entity", none, "", false, 500, none, 0⟩ ∧
    New CodeRateLimited 0 "" = ⟨CodeRateLimited, "Rate limited", none, "", true, 500, none, 0⟩ ∧
    New CodeCanceled 0 "" = ⟨CodeCanceled, "Request canceled", none, "", false, 500, none, 0⟩ ∧
    New CodeUnavailable 0 "" = ⟨CodeUnavailable, "Service unavailable", none, "", true, 500, none, 0⟩ ∧
    New CodeTimeout 0 "" = ⟨CodeTimeout, "Request timed out", none, "", true, 500, none, 0⟩ ∧
    New CodeDownstream 0 "" = ⟨CodeDownstream, "Downstream service error", none, "", false, 500, none, 0⟩ ∧
    New CodeDownstreamTimeout 0 "" = ⟨CodeDownstreamTimeout, "Request timed out", none, "", true, 500, none, 0⟩ := by
  exact ⟨rfl, rfl, rfl, rfl, rfl, rfl, rfl, rfl, rfl, rfl, rfl, rfl, rfl,
    rfl, rfl, rfl, rfl, rfl⟩

/-- C2: each of the five mutators is a pure copy-then-modify: the result
agrees with the receiver on every field except the targeted one, which is
set to the argument (for `WithStatus`, only when the argument is
non-zero). In this value-level embedding the receiver is by definition
untouched, mirroring the source's clone-before-assign, and each mutator is
a total function. -/
theorem C2_mutators_frame (e : ErrorV) (d : Option AnyVal) (id : String)
    (v : Bool) (s : Int) (ra : Int) :
    (e.WithDetails d).Code = e.Code ∧ (e.WithDetails d).Message = e.Message ∧
    (e.WithDetails d).TraceID = e.TraceID ∧ (e.WithDetails d).Retryable = e.Retryable ∧
    (e.WithDetails d).Status = e.Status ∧ (e.WithDetails d).Cause = e.Cause ∧
    (e.WithDetails d).RetryAfter = e.RetryAfter ∧ (e.WithDetails d).Details = d ∧
    (e.WithTraceID id).Code = e.Code ∧ (e.WithTraceID id).Message = e.Message ∧
    (e.WithTraceID id).Details = e.Details ∧ (e.WithTraceID id).Retryable = e.Retryable ∧
    (e.WithTraceID id).Status = e.Status ∧ (e.WithTraceID id).Cause = e.Cause ∧
    (e.WithTraceID id).RetryAfter = e.RetryAfter ∧ (e.WithTraceID id).TraceID = id ∧
    (e.WithRetryable v).Code = e.Code ∧ (e.WithRetryable v).Message = e.Message ∧
    (e.WithRetryable v).Details = e.Details ∧ (e.WithRetryable v).TraceID = e.TraceID ∧
    (e.WithRetryable v).Status = e.Status ∧ (e.WithRetryable v).Cause = e.Cause ∧
    (e.WithRetryable v).RetryAfter = e.RetryAfter ∧ (e.WithRetryable v).Retryable = v ∧
    (e.WithStatus s).Code = e.Code ∧ (e.WithStatus s).Message = e.Message ∧
    (e.WithStatus s).Details = e.Details ∧ (e.WithStatus s).TraceID = e.TraceID ∧
    (e.WithStatus s).Retryable = e.Retryable ∧ (e.WithStatus s).Cause = e.Cause ∧
    (e.WithStatus s).RetryAfter = e.RetryAfter ∧
    (e.WithStatus s).Status = (if s ≠ 0 then s else e.Status) ∧
    (e.WithRetryAfter ra).Code = e.Code ∧ (e.WithRetryAfter ra).Message = e.Message ∧
    (e.WithRetryAfter ra).Details = e.Details ∧ (e.WithRetryAfter ra).TraceID = e.TraceID ∧
    (e.WithRetryAfter ra).Retryable = e.Retryable ∧ (e.WithRetryAfter ra).Status = e.Status ∧
    (e.WithRetryAfter ra).Cause = e.Cause ∧ (e.WithRetryAfter ra).RetryAfter = ra := by
  exact ⟨rfl, rfl, rfl, rfl, rfl, rfl, rfl, rfl, rfl, rfl, rfl, rfl, rfl,
    rfl, rfl, rfl, rfl, rfl, rfl, rfl, rfl, rfl, rfl, rfl, rfl, rfl, rfl,
    rfl, rfl, rfl, rfl, rfl, rfl, rfl, rfl, rfl, rfl, rfl, rfl, rfl⟩

/-- C3: `From` applies its rules in the fixed order
passthrough-if-structured, deadline-exceeded, canceled, network-timeout,
generic-internal-wrap, with only the first matching rule applying;
`From nil = nil`; a deadline-exceeded chain (however wrapped or joined)
yields TIMEOUT/504/retryable-true, a canceled chain yields
CANCELED/499/retryable-false, and a chain whose first net.Error reports
`Timeout() == true` yields TIMEOUT/504/retryable-true. -/
theorem C3_from_precedence :
    From none = none ∧
    (∀ err e, asError err = some e → From (some err) = some (fromFill e)) ∧
    (∀ err, asError err = none → isDeadlineExceeded err = true →
      From (some err) = some (Timeout "")) ∧
    (∀ err, asError err = none → isDeadlineExceeded err = false →
      isCanceled err = true →
      From (some err) = some ((New CodeCanceled 499 "").WithRetryable false)) ∧
    (∀ err, asError err = none → isDeadlineExceeded err = false →
      isCanceled err = false → asNetError err = some true →
      From (some err) = some (Timeout "")) ∧
    (Timeout "").Code = CodeTimeout ∧ (Timeout "").Status = 504 ∧
    (Timeout "").Retryable = true ∧
    ((New CodeCanceled 499 "").WithRetryable false).Code = CodeCanceled ∧
    ((New CodeCanceled 499 "").WithRetryable false).Status = 499 ∧
    ((New CodeCanceled 499 "").WithRetryable false).Retryable = false := by
  refine ⟨rfl, ?_, ?_, ?_, ?_, rfl, rfl, rfl, rfl, rfl, rfl⟩
  · intro err e h
    simp [From, h]
  · intro err h1 h2
    simp [From, h1, h2]
  · intro err h1 h2 h3
    simp [From, h1, h2, h3]
  · intro err h1 h2 h3 h4
    simp [From, h1, h2, h3, h4]

/-- Witness for C3: the precedence theorem applied at concrete inputs of
each shape — a structured error, a deadline-exceeded signal joined with
another failure, a canceled signal, and a network timeout. -/
theorem C3_from_precedence_witness :
    From (some ((NotFound "x").toGoError)) = some (fromFill (NotFound "x")) ∧
    From (some (.joined (.basic 0 none) .deadlineExceeded)) = some (Timeout "") ∧
    From (some .canceled) = some ((New CodeCanceled 499 "").WithRetryable false) ∧
    From (some (.netErr true none)) = some (Timeout "") :=
  ⟨C3_from_precedence.2.1 ((NotFound "x").toGoError) (NotFound "x") rfl,
   C3_from_precedence.2.2.1 (.joined (.basic 0 none) .deadlineExceeded) rfl rfl,
   C3_from_precedence.2.2.2.1 .canceled rfl rfl rfl,
   C3_from_precedence.2.2.2.2.1 (.netErr true none) rfl rfl rfl rfl⟩

/-- C4: a non-nil failure whose chain holds no structured error, is not
deadline-exceeded or canceled, and exposes no true network-timeout
indicator is wrapped as INTERNAL with status 500, retryable false, its
cause equal to the original failure, and the generic default message
"Internal error" (not the original failure's text). -/
theorem C4_from_internal_wrap (err : GoError) (h1 : asError err = none)
    (h2 : isDeadlineExceeded err = false) (h3 : isCanceled err = false)
    (h4 : asNetError err ≠ some true) :
    From (some err) =
      some ((Wrap CodeInternal 500 "" (some err)).WithRetryable false) ∧
    ((Wrap CodeInternal 500 "" (some err)).WithRetryable false).Code = CodeInternal ∧
    ((Wrap CodeInternal 500 "" (some err)).WithRetryable false).Status = 500 ∧
    ((Wrap CodeInternal 500 "" (some err)).WithRetryable false).Retryable = false ∧
    ((Wrap CodeInternal 500 "" (some err)).WithRetryable false).Cause = some err ∧
    ((Wrap CodeInternal 500 "" (some err)).WithRetryable false).Message =
      "Internal error" := by
  refine ⟨?_, rfl, rfl, rfl, rfl, rfl⟩
  rcases hne : asNetError err with - | t
  · simp [From, h1, h2, h3, hne]
  · cases t
    · simp [From, h1, h2, h3, hne]
    · exact absurd hne h4

/-- Witness for C4: the internal-wrap rule applied to a plain opaque
failure. -/
theorem C4_from_internal_wrap_witness :
    From (some (.basic 7 none)) =
      some ((Wrap CodeInternal 500 "" (some (.basic 7 none))).WithRetryable false) :=
  (C4_from_internal_wrap (.basic 7 none) rfl rfl rfl (by simp [asNetError])).1

/-- C7: when the chain already holds a structured error, `From` returns
it with `TraceID`, `Details`, `Retryable`, `RetryAfter`, `Code` and
`Cause` exactly preserved; `Status` is filled to 500 only when zero and
`Message` to the code's default only when empty, and a non-zero status or
non-empty message is returned unaltered. -/
theorem C7_from_passthrough_preserves (err : GoError) (e : ErrorV)
    (h : asError err = some e) :
    From (some err) = some (fromFill e) ∧
    (fromFill e).TraceID = e.TraceID ∧
    (fromFill e).Details = e.Details ∧
    (fromFill e).Retryable = e.Retryable ∧
    (fromFill e).RetryAfter = e.RetryAfter ∧
    (fromFill e).Code = e.Code ∧
    (fromFill e).Cause = e.Cause ∧
    (fromFill e).Status = (if e.Status = 0 then 500 else e.Status) ∧
    (fromFill e).Message =
      (if e.Message = "" then defaultMessage e.Code else e.Message) ∧
    (e.Status ≠ 0 → (fromFill e).Status = e.Status) ∧
    (e.Message ≠ "" → (fromFill e).Message = e.Message) := by
  refine ⟨by simp [From, h], rfl, rfl, rfl, rfl, rfl, rfl, rfl, rfl, ?_, ?_⟩
  · intro h0
    simp [fromFill, h0]
  · intro h0
    simp [fromFill, h0]

/-- Witness for C7: passthrough applied to a structured error carrying
every optional field, with non-zero status and non-empty message. -/
theorem C7_from_passthrough_witness :
    From (some (.structured "CONFLICT" "dup" (some (.strMap [("k", "v")]))
        "tid-1" true 409 none 2000000000)) =
      some (fromFill ⟨"CONFLICT", "dup", some (.strMap [("k", "v")]),
        "tid-1", true, 409, none, 2000000000⟩) ∧
    (fromFill ⟨"CONFLICT", "dup", some (.strMap [("k", "v")]),
        "tid-1", true, 409, none, 2000000000⟩).Status = 409 :=
  ⟨(C7_from_passthrough_preserves
      (.structured "CONFLICT" "dup" (some (.strMap [("k", "v")]))
        "tid-1" true 409 none 2000000000)
      ⟨"CONFLICT", "dup", some (.strMap [("k", "v")]),
        "tid-1", true, 409, none, 2000000000⟩ rfl).1,
   (C7_from_passthrough_preserves
      (.structured "CONFLICT" "dup" (some (.strMap [("k", "v")]))
        "tid-1" true 409 none 2000000000)
      ⟨"CONFLICT", "dup", some (.strMap [("k", "v")]),
        "tid-1", true, 409, none, 2000000000⟩ rfl).2.2.2.2.2.2.2.2.2.1
    (by decide)⟩

/-- A structured error carrying a 1.5-second retry-after, used to exercise
the Retry-After header computation. -/
def retryAfterSample : GoError :=
  .structured "UNAVAILABLE" "maintenance" none "tid" true 503 none 1500000000

/-- C5 counterexample: the claim says the Retry-After header equals
max(1, ceil(d in seconds)), so a 1.5-second duration would advertise 2;
the code computes `int(d.Seconds())`, truncating toward zero, so emitting
an error with a 1.5-second retry-after sets the header to 1, not the
claimed 2. -/
theorem C5_counterexample :
    (Write (some retryAfterSample) "").retryAfterHeader = some 1 ∧
    ceilSecondsMinOne 1500000000 = 2 ∧ (1 : Nat) ≠ 2 := by
  exact ⟨rfl, rfl, by decide⟩

/-- C5 (amended): whenever the emitted error's retry-after duration is
positive, the Retry-After header is set to the truncation (floor) of the
duration in whole seconds with a floor of 1 — so it is never 0 and a
sub-second duration still advertises 1 second — rather than the ceiling. -/
theorem C5_retry_after_floor :
    (∀ d : Int, 0 < d →
      retryAfterHeaderSeconds d = max 1 (d.toNat / 1000000000) ∧
      1 ≤ retryAfterHeaderSeconds d) ∧
    (∀ (err : Option GoError) (t : String) (e : ErrorV), From err = some e →
      0 < e.RetryAfter →
      (Write err t).retryAfterHeader =
        some (retryAfterHeaderSeconds e.RetryAfter)) := by
  constructor
  · intro d _
    constructor
    · simp only [retryAfterHeaderSeconds]
      split <;> omega
    · simp only [retryAfterHeaderSeconds]
      split <;> omega
  · intro err t e hf hra
    by_cases htr : e.TraceID = "" <;>
      simp [Write, hf, htr, hra]

/-- Witness for C5: the floor formula at 1.5 seconds, and the header
emitted for a structured error carrying a positive retry-after. -/
theorem C5_retry_after_floor_witness :
    (retryAfterHeaderSeconds 1500000000 =
        max 1 ((1500000000 : Int).toNat / 1000000000) ∧
      1 ≤ retryAfterHeaderSeconds 1500000000) ∧
    (Write (some retryAfterSample) "").retryAfterHeader =
      some (retryAfterHeaderSeconds
        (fromFill ⟨"UNAVAILABLE", "maintenance", none, "tid", true, 503,
          none, 1500000000⟩).RetryAfter) :=
  ⟨C5_retry_after_floor.1 1500000000 (by decide),
   C5_retry_after_floor.2 (some retryAfterSample) ""
     (fromFill ⟨"UNAVAILABLE", "maintenance", none, "tid", true, 503,
       none, 1500000000⟩) rfl (by decide)⟩

/-- C6 (the claim as stated is the spec's intent; the code violates it):
when a caller-held structured error with an empty trace id is passed to
`Write` and the request resolves a trace id, the fill is an assignment
through the caller's own pointer (`errors.As` in `From` binds the caller's
`*Error`), so the caller's value is observably changed after `Write`
returns: its `TraceID` is no longer empty. Evaluated at the failing
input `NotFound("x")` (trace id empty) with request trace `"abc-123"`. -/
theorem C6_write_mutates_shared :
    (NotFound "x").TraceID = "" ∧
    (writeSharedFill (NotFound "x") "abc-123").TraceID = "abc-123" ∧
    "abc-123" ≠ "" := by
  exact ⟨rfl, rfl, by decide⟩

/-- A chain whose first structured error carries INTERNAL while a deeper
one carries NOT_FOUND. -/
def nestedCodeSample : GoError :=
  .structured "INTERNAL" "wrapper" none "" false 500
    (some (.structured "NOT_FOUND" "inner" none "" false 404 none 0)) 0

/-- C8 counterexample: the claim says `Is(err, c)` is true exactly when
some structured error in the chain carries `c`, even when the first
structured error found carries a different code; on the code, `errors.As`
stops at the first structured error and only its code is compared, so a
NOT_FOUND carried deeper in the chain is not found. -/
theorem C8_counterexample :
    Is (some nestedCodeSample) CodeNotFound = false ∧
    chainCarriesCode nestedCodeSample CodeNotFound = true := by
  exact ⟨rfl, rfl⟩

/-- C8 (amended): `Is(err, c)` returns true exactly when the *first*
structured error of `err`'s unwrap chain (in the pre-order traversal of
`errors.As`) carries code `c`; it returns false when `err` is absent or
the chain holds no structured error, and deeper structured errors are
never consulted. -/
theorem C8_is_first_match :
    (∀ c, Is none c = false) ∧
    (∀ err c, Is (some err) c = true ↔
      ∃ ev, asError err = some ev ∧ ev.Code = c) := by
  refine ⟨fun c => rfl, fun err c => ?_⟩
  constructor
  · intro h
    rcases ha : asError err with - | ev
    · simp [Is, ha] at h
    · refine ⟨ev, rfl, ?_⟩
      simpa [Is, ha] using h
  · rintro ⟨ev, ha, hc⟩
    simp [Is, ha, hc]

/-- Hex encoding yields two characters per byte. -/
theorem hexEncode_length (bs : List Nat) :
    ((bs.map hexByte).flatten).length = 2 * bs.length := by
  induction bs with
  | nil => simp
  | cons b bs ih =>
    simp only [List.map_cons, List.flatten_cons, List.length_append,
      List.length_cons, ih, hexByte, List.length_nil]
    omega

/-- Every nibble encodes to a lowercase hexadecimal character. -/
theorem hexDigit_isLowerHex : ∀ n, n < 16 → isLowerHexChar (hexDigit n) = true := by
  decide

/-- C9: the trace middleware hands downstream the inbound trace header
unchanged when it is non-empty; when it is empty, the id it hands down is
the hex encoding of the 16 freshly drawn random bytes — a 32-character
string all of whose characters are lowercase hexadecimal digits. -/
theorem C9_trace_middleware (headerVal : String) (bytes : List Nat)
    (hlen : bytes.length = 16) (hbound : ∀ b ∈ bytes, b < 256) :
    (headerVal ≠ "" → traceMiddlewareID headerVal bytes = headerVal) ∧
    (headerVal = "" →
      traceMiddlewareID headerVal bytes = newTraceID bytes ∧
      (traceMiddlewareID headerVal bytes).length = 32 ∧
      ∀ c ∈ (traceMiddlewareID headerVal bytes).data,
        isLowerHexChar c = true) := by
  constructor
  · intro hne
    simp [traceMiddlewareID, hne]
  · intro he
    subst he
    refine ⟨rfl, ?_, ?_⟩
    · show ((bytes.map hexByte).flatten).length = 32
      rw [hexEncode_length, hlen]
    · intro c hc
      have hc' : c ∈ (bytes.map hexByte).flatten := hc
      rw [List.mem_flatten] at hc'
      obtain ⟨l, hl, hcl⟩ := hc'
      rw [List.mem_map] at hl
      obtain ⟨b, hb, rfl⟩ := hl
      have hb256 : b < 256 := hbound b hb
      simp only [hexByte, List.mem_cons, List.not_mem_nil, or_false] at hcl
      rcases hcl with rfl | rfl
      · exact hexDigit_isLowerHex _ (by omega)
      · exact hexDigit_isLowerHex _ (Nat.mod_lt _ (by omega))

/-- Witness for C9: a non-empty header is propagated unchanged, and with
an empty header the generated id from 16 concrete bytes has length 32. -/
theorem C9_trace_middleware_witness :
    traceMiddlewareID "abc-123" (List.replicate 16 171) = "abc-123" ∧
    (traceMiddlewareID "" (List.replicate 16 171)).length = 32 :=
  ⟨(C9_trace_middleware "abc-123" (List.replicate 16 171)
      (by decide) (by decide)).1 (by decide),
   ((C9_trace_middleware "" (List.replicate 16 171)
      (by decide) (by decide)).2 rfl).2.1⟩

/-- C10: `Downstream("", cause)` and `DownstreamTimeout("", cause)` set
`Details` to a non-nil empty map, so the body's `details` field is
serialized as the empty object rather than omitted; the field is omitted
exactly when `Details` is nil (the `omitempty` tag on an interface field
omits only a nil interface, not a non-nil empty map). -/
theorem C10_downstream_empty_details (cause : Option GoError) :
    (Downstream "" cause).Details = some (.strMap []) ∧
    detailsField (Downstream "" cause) = some [] ∧
    (DownstreamTimeout "" cause).Details = some (.strMap []) ∧
    detailsField (DownstreamTimeout "" cause) = some [] ∧
    (∀ e : ErrorV, detailsField e = none ↔ e.Details = none) := by
  refine ⟨rfl, rfl, rfl, rfl, fun e => ?_⟩
  rcases e with ⟨c, m, d, t, r, s, ca, ra⟩
  rcases d with - | d
  · simp [detailsField]
  · rcases d with entries | fields <;> simp [detailsField]

/-- Witness for C2: the frame property applied at a concrete error and
concrete mutator arguments. -/
theorem C2_mutators_frame_witness :
    ((NotFound "x").WithDetails (some (.strMap [("k", "v")]))).Code =
      (NotFound "x").Code ∧
    ((NotFound "x").WithDetails (some (.strMap [("k", "v")]))).Details =
      some (.strMap [("k", "v")]) :=
  ⟨(C2_mutators_frame (NotFound "x") (some (.strMap [("k", "v")]))
      "t" true 404 5).1,
   (C2_mutators_frame (NotFound "x") (some (.strMap [("k", "v")]))
      "t" true 404 5).2.2.2.2.2.2.2.1⟩

/-- Witness for C8 (amended): the first structured error of the sample
chain carries INTERNAL, so `Is` reports INTERNAL and only INTERNAL. -/
theorem C8_is_first_match_witness :
    Is (some nestedCodeSample) CodeInternal = true :=
  (C8_is_first_match.2 nestedCodeSample CodeInternal).mpr
    ⟨⟨"INTERNAL", "wrapper", none, "", false, 500,
      some (.structured "NOT_FOUND" "inner" none "" false 404 none 0), 0⟩,
     rfl, rfl⟩

/-- Witness for C10: the details field of a concrete downstream error with
empty service name serializes as the empty object. -/
theorem C10_downstream_empty_details_witness :
    detailsField (Downstream "" (some (.basic 1 none))) = some [] :=
  (C10_downstream_empty_details (some (.basic 1 none))).2.1

end ErrEnvelope
